import Mathlib

/-!
Verification of `src/TrafficSignal.c` (Traffic-Light-Controller).

The program is straight-line C over a memory-mapped GPIO register block.
We embed it shallowly:

* 32-bit register words are `Nat` values; bitwise operations `&&&`, `|||`,
  `^^^` are used exactly as in the C source, with the 32-bit complement
  written explicitly as `0xFFFFFFFF ^^^ m`.
* Every externally visible action of the program (write to GPFSEL1/GPFSEL2,
  write to the GPSET0 set register or GPCLR0 clear register, a sleep, a
  poll of the button level register) becomes an event `Ev`; each C function
  that performs actions is embedded as the list of events it emits.
* The environment is: whether `open("/dev/mem")` succeeds, whether `mmap`
  succeeds, the initial contents of the function-select words, and the
  value the GPLEV0 level register would return at the i-th poll
  (`levels : Nat → Nat`).
* The electrical state of the output latch is recovered from the event
  list by folding the hardware semantics of the set/clear registers
  (`applyEv`): a set write ORs the mask in, a clear write clears exactly
  the bits of the mask.
-/

namespace TrafficSignal

set_option maxRecDepth 10000

/-- All-ones 32-bit word, used for the truncated bitwise complement. -/
def WORD_MASK : Nat := 0xFFFFFFFF

/-- `#define PIN10_MASK 0b10000000000` (src line 48). -/
def PIN10_MASK : Nat := 0b10000000000

/-- `#define PIN11_MASK 0b100000000000` (src line 49). -/
def PIN11_MASK : Nat := 0b100000000000

/-- `#define PIN13_MASK 0b10000000000000` (src line 50). -/
def PIN13_MASK : Nat := 0b10000000000000

/-- `#define PIN26_MASK 0b100000000000000000000000000` (src line 51). -/
def PIN26_MASK : Nat := 0b100000000000000000000000000

/-- `#define RED_DURATION 3` (seconds). -/
def RED_DURATION : Nat := 3

/-- `#define RED_YELLOW_DURATION 2` (seconds). -/
def RED_YELLOW_DURATION : Nat := 2

/-- `#define GREEN_DURATION 5` (seconds). -/
def GREEN_DURATION : Nat := 5

/-- `#define YELLOW_BLINK_COUNT 3`. -/
def YELLOW_BLINK_COUNT : Nat := 3

/-- `#define YELLOW_BLINK_DELAY 500000` (microseconds). -/
def YELLOW_BLINK_DELAY : Nat := 500000

/-- Union of the three LED output-pin bits. -/
def LED_MASK : Nat := PIN10_MASK ||| PIN11_MASK ||| PIN13_MASK

/-- One externally visible action of the program. -/
inductive Ev : Type
  /-- write `v` to the GPFSEL1 function-select word -/
  | fsel1w (v : Nat)
  /-- write `v` to the GPFSEL2 function-select word -/
  | fsel2w (v : Nat)
  /-- write `v` to the GPSET0 set register -/
  | setw (v : Nat)
  /-- write `v` to the GPCLR0 clear register -/
  | clrw (v : Nat)
  /-- `sleep`/`usleep` for `us` microseconds -/
  | sleepUs (us : Nat)
  /-- one read of the GPLEV0 level register by `button_pressed`, with result -/
  | pollButton (pressed : Bool)
deriving DecidableEq, Repr

/-- The new GPFSEL1 value computed by `init_gpio` (src lines 93-99):
read the word, clear bits 0-11, OR in `0b001001001001`. -/
def init_fsel1 (v : Nat) : Nat :=
  (v &&& 0b11111111111111111111000000000000) ||| 0b00000000000000000000001001001001

/-- The new GPFSEL2 value computed by `init_gpio` (src lines 102-104):
read the word, clear bits 18-20. -/
def init_fsel2 (v : Nat) : Nat :=
  v &&& 0b11111111111000111111111111111111

/-- `init_gpio` (src lines 88-110) as the list of register writes it
performs, given the pre-initialization contents of GPFSEL1 and GPFSEL2. -/
def init_gpio (fsel1 fsel2 : Nat) : List Ev :=
  [Ev.fsel1w (init_fsel1 fsel1), Ev.fsel2w (init_fsel2 fsel2),
   Ev.clrw PIN13_MASK, Ev.clrw PIN11_MASK, Ev.clrw PIN10_MASK]

/-- The 3-bit function-select field of `pin` inside its function-select
word `w` (field at bit offset `(pin mod 10) * 3`). -/
def fselField (w pin : Nat) : Nat := (w >>> ((pin % 10) * 3)) &&& 0b111

/-- `button_pressed` (src lines 143-146): reads the level word and returns
whether `(level & PIN26_MASK) == 0` (active low with pull-up). -/
def button_pressed (level : Nat) : Bool := (level &&& PIN26_MASK) == 0

/-- The loop body of `wait_for_button_or_timeout` (src lines 151-158):
`i` is the current loop counter, the second argument the remaining number
of iterations.  Each iteration polls the button; on a press it sleeps the
0.3 s debounce delay and returns, otherwise it sleeps 0.1 s and continues. -/
def waitLoop (levels : Nat → Nat) : Nat → Nat → List Ev
  | _, 0 => []
  | i, fuel + 1 =>
    if button_pressed (levels i) then
      [Ev.pollButton true, Ev.sleepUs 300000]
    else
      Ev.pollButton false :: Ev.sleepUs 100000 :: waitLoop levels (i + 1) fuel

/-- `wait_for_button_or_timeout` (src lines 149-160): the loop runs for at
most `timeout_seconds * 10` iterations starting at `i = 0`. -/
def wait_for_button_or_timeout (levels : Nat → Nat) (timeout_seconds : Nat) : List Ev :=
  waitLoop levels 0 (timeout_seconds * 10)

/-- Phase 1 (src lines 167-171): red on, yellow off, green off, sleep 3 s. -/
def phase1 : List Ev :=
  [Ev.setw PIN10_MASK, Ev.clrw PIN11_MASK, Ev.clrw PIN13_MASK,
   Ev.sleepUs (RED_DURATION * 1000000)]

/-- Phase 2 (src lines 174-178): red on, yellow on, green off, sleep 2 s. -/
def phase2 : List Ev :=
  [Ev.setw PIN10_MASK, Ev.setw PIN11_MASK, Ev.clrw PIN13_MASK,
   Ev.sleepUs (RED_YELLOW_DURATION * 1000000)]

/-- Phase 3 (src lines 181-185): red off, yellow off, green on, sleep 5 s. -/
def phase3 : List Ev :=
  [Ev.clrw PIN10_MASK, Ev.clrw PIN11_MASK, Ev.setw PIN13_MASK,
   Ev.sleepUs (GREEN_DURATION * 1000000)]

/-- Phase 4 (src lines 188-191): red off, yellow off, green on, then the
button wait with a 5 second timeout. -/
def phase4 (levels : Nat → Nat) : List Ev :=
  [Ev.clrw PIN10_MASK, Ev.clrw PIN11_MASK, Ev.setw PIN13_MASK]
    ++ wait_for_button_or_timeout levels 5

/-- Phase 5 (src lines 194-198): red off, yellow off, green on, sleep 2 s. -/
def phase5 : List Ev :=
  [Ev.clrw PIN10_MASK, Ev.clrw PIN11_MASK, Ev.setw PIN13_MASK, Ev.sleepUs 2000000]

/-- The blink loop of phase 6 (src lines 204-209): each iteration sets the
yellow bit, sleeps 0.5 s, clears it, sleeps 0.5 s. -/
def blink : Nat → List Ev
  | 0 => []
  | n + 1 =>
    [Ev.setw PIN11_MASK, Ev.sleepUs YELLOW_BLINK_DELAY,
     Ev.clrw PIN11_MASK, Ev.sleepUs YELLOW_BLINK_DELAY] ++ blink n

/-- Phase 6 (src lines 201-209): red off, green off, then the blink loop
run `YELLOW_BLINK_COUNT` times. -/
def phase6 : List Ev :=
  [Ev.clrw PIN10_MASK, Ev.clrw PIN13_MASK] ++ blink YELLOW_BLINK_COUNT

/-- Phase 7 (src lines 212-216): red on, yellow off, green off, sleep 3 s. -/
def phase7 : List Ev :=
  [Ev.setw PIN10_MASK, Ev.clrw PIN11_MASK, Ev.clrw PIN13_MASK,
   Ev.sleepUs (RED_DURATION * 1000000)]

/-- `traffic_light_sequence` (src lines 163-219): the seven phases in
order; only phase 4 consults the button input. -/
def traffic_light_sequence (levels : Nat → Nat) : List Ev :=
  phase1 ++ phase2 ++ phase3 ++ phase4 levels ++ phase5 ++ phase6 ++ phase7

/-- `setup_gpio` (src lines 56-85): returns -1 when the `/dev/mem` open
fails, -1 when the `mmap` call fails, 0 otherwise.  No register access
happens in this function. -/
def setup_gpio (openOk mmapOk : Bool) : Int :=
  if !openOk then -1
  else if !mmapOk then -1
  else 0

/-- `main` (src lines 221-250): if `setup_gpio` failed, return exit code 1
having performed no register access; otherwise run `init_gpio`, the
sequence, clear all three LEDs, and return 0.  `argc`/`argv` are the
command-line arguments, which the body never reads. -/
def main_run (argc : Nat) (argv : List String) (openOk mmapOk : Bool)
    (fsel1 fsel2 : Nat) (levels : Nat → Nat) : Nat × List Ev :=
  if setup_gpio openOk mmapOk = -1 then
    (1, [])
  else
    (0, init_gpio fsel1 fsel2 ++ traffic_light_sequence levels
        ++ [Ev.clrw PIN10_MASK, Ev.clrw PIN11_MASK, Ev.clrw PIN13_MASK])

/-- `red_on` (src lines 113-115): writes `PIN10_MASK` to the set register. -/
def red_on : Ev := Ev.setw PIN10_MASK

/-- `red_off` (src lines 118-120): writes `PIN10_MASK` to the clear register. -/
def red_off : Ev := Ev.clrw PIN10_MASK

/-- `yellow_on` (src lines 123-125). -/
def yellow_on : Ev := Ev.setw PIN11_MASK

/-- `yellow_off` (src lines 128-130). -/
def yellow_off : Ev := Ev.clrw PIN11_MASK

/-- `green_on` (src lines 133-135). -/
def green_on : Ev := Ev.setw PIN13_MASK

/-- `green_off` (src lines 138-140). -/
def green_off : Ev := Ev.clrw PIN13_MASK

/-- Hardware semantics of one event on the output latch: a set-register
write ORs its mask in, a clear-register write clears exactly the bits of
its mask (BCM283x set/clear register contract); everything else leaves
the latch alone. -/
def applyEv (out : Nat) : Ev → Nat
  | Ev.setw v => out ||| v
  | Ev.clrw v => out &&& (WORD_MASK ^^^ v)
  | _ => out

/-- Output-latch state after a list of events. -/
def ledFold (out : Nat) (evs : List Ev) : Nat := evs.foldl applyEv out

/-- The output-latch state after each successive event of the list. -/
def ledStates (out : Nat) : List Ev → List Nat
  | [] => []
  | e :: rest => applyEv out e :: ledStates (applyEv out e) rest

/-- Total simulated time of an event list, in microseconds. -/
def elapsedUs : List Ev → Nat
  | [] => 0
  | Ev.sleepUs u :: rest => u + elapsedUs rest
  | _ :: rest => elapsedUs rest

/-- Number of button polls in an event list. -/
def pollCount : List Ev → Nat
  | [] => 0
  | Ev.pollButton _ :: rest => 1 + pollCount rest
  | _ :: rest => pollCount rest

/-- Whether an event is a write to the set or clear register. -/
def isWrite : Ev → Bool
  | Ev.setw _ => true
  | Ev.clrw _ => true
  | _ => false

/-- The values written to the set or clear register by an event list
(function-select writes, sleeps and polls carry no such value). -/
def writeVals : List Ev → List Nat
  | [] => []
  | Ev.setw v :: rest => v :: writeVals rest
  | Ev.clrw v :: rest => v :: writeVals rest
  | _ :: rest => writeVals rest

/-! ### Helper lemmas -/

/-- Clearing the bits of `v` and then masking with `v` yields zero. -/
theorem and_comp_cancel (y v : Nat) (h : (WORD_MASK ^^^ v) &&& v = 0) :
    (y &&& (WORD_MASK ^^^ v)) &&& v = 0 := by
  rw [Nat.and_assoc, h, Nat.and_zero]

/-! ### C1 -/

/-- C1: refuted on the code (code bug).  With GPFSEL1 initially 0, the
claim (and the comment in `init_gpio`, which lists only pins 10, 11, 13)
says pin 12's function-select field, bits 6-8 of GPFSEL1, stays `000`;
but `init_gpio`'s OR mask `0b001001001001` also covers bit 6, so after
initialization pin 12's field reads `001` (output mode), not its
pre-initialization value `000`. -/
theorem init_gpio_modifies_pin12_field :
    fselField 0 12 = 0 ∧ fselField (init_fsel1 0) 12 = 1 := by decide

/-! ### C7 -/

/-- C7: `button_pressed` returns true iff bit 26 of the level word is 0
(active-low convention), for every value of the level word; equivalently
it computes `(level &&& (1 <<< 26)) == 0`. -/
theorem button_pressed_iff_bit26_clear (level : Nat) :
    button_pressed level = ((level &&& (1 <<< 26)) == 0)
    ∧ (button_pressed level = true ↔ level.testBit 26 = false) := by
  constructor
  · have h : PIN26_MASK = 1 <<< 26 := by decide
    rw [button_pressed, h]
  · have h2 : PIN26_MASK = 2 ^ 26 := by decide
    rw [button_pressed, h2, Nat.and_two_pow]
    cases h : level.testBit 26 <;> simp [h]

/-! ### C9 -/

/-- C9: two invocations of `main` that differ only in their command-line
arguments but agree on the open/mmap outcomes, the initial register
contents and the button levels produce the same exit code and the same
sequence of register writes. -/
theorem main_run_ignores_args (argc1 argc2 : Nat) (argv1 argv2 : List String)
    (openOk mmapOk : Bool) (fsel1 fsel2 : Nat) (levels : Nat → Nat) :
    main_run argc1 argv1 openOk mmapOk fsel1 fsel2 levels
      = main_run argc2 argv2 openOk mmapOk fsel1 fsel2 levels := rfl

/-! ### C6 -/

/-- C6: phase 6 first drives red and green low, then performs exactly 6
toggle writes of the yellow bit (3 set writes and 3 clear writes) with a
0.5 s sleep between consecutive toggles, and from any latch state the
yellow bit is off when the phase ends. -/
theorem phase6_blink_six_toggles (s : Nat) :
    phase6 = [Ev.clrw PIN10_MASK, Ev.clrw PIN13_MASK,
      Ev.setw PIN11_MASK, Ev.sleepUs 500000, Ev.clrw PIN11_MASK, Ev.sleepUs 500000,
      Ev.setw PIN11_MASK, Ev.sleepUs 500000, Ev.clrw PIN11_MASK, Ev.sleepUs 500000,
      Ev.setw PIN11_MASK, Ev.sleepUs 500000, Ev.clrw PIN11_MASK, Ev.sleepUs 500000]
    ∧ (writeVals (blink YELLOW_BLINK_COUNT)).length = 6
    ∧ ((blink YELLOW_BLINK_COUNT).filter (· == Ev.setw PIN11_MASK)).length = 3
    ∧ ((blink YELLOW_BLINK_COUNT).filter (· == Ev.clrw PIN11_MASK)).length = 3
    ∧ ledFold s phase6 &&& PIN11_MASK = 0 := by
  refine ⟨by decide, by decide, by decide, by decide, ?_⟩
  simp only [phase6, blink, YELLOW_BLINK_COUNT, ledFold, List.cons_append,
    List.nil_append, List.foldl_cons, List.foldl_nil, applyEv]
  exact and_comp_cancel _ _ (by decide)

/-- Simulated time adds over concatenation of event lists. -/
theorem elapsedUs_append (l1 l2 : List Ev) :
    elapsedUs (l1 ++ l2) = elapsedUs l1 + elapsedUs l2 := by
  induction l1 with
  | nil => simp [elapsedUs]
  | cons e rest ih => cases e <;> simp [elapsedUs, ih] <;> omega

/-- If the button never reads pressed during the loop, the wait loop runs
all `f` iterations: `f` polls and `f` sleeps of 0.1 s. -/
theorem waitLoop_timeout (levels : Nat → Nat) (i f : Nat)
    (h : ∀ j, j < f → button_pressed (levels (i + j)) = false) :
    elapsedUs (waitLoop levels i f) = f * 100000
    ∧ pollCount (waitLoop levels i f) = f := by
  induction f generalizing i with
  | zero => simp [waitLoop, elapsedUs, pollCount]
  | succ f ih =>
    have h0 : button_pressed (levels i) = false := by
      have := h 0 (Nat.succ_pos f); simpa using this
    have hrest := ih (i + 1) (fun j hj => by
      have := h (j + 1) (by omega); simpa [Nat.add_assoc, Nat.add_comm 1 j] using this)
    simp only [waitLoop, h0, if_false, Bool.false_eq_true, elapsedUs, pollCount]
    omega

/-- If the button first reads pressed at relative poll index `k < f`, the
wait loop performs `k + 1` polls, `k` sleeps of 0.1 s and one debounce
sleep of 0.3 s. -/
theorem waitLoop_press (levels : Nat → Nat) (f i k : Nat)
    (hk : k < f) (hp : button_pressed (levels (i + k)) = true)
    (hmin : ∀ j, j < k → button_pressed (levels (i + j)) = false) :
    elapsedUs (waitLoop levels i f) = k * 100000 + 300000
    ∧ pollCount (waitLoop levels i f) = k + 1 := by
  induction f generalizing i k with
  | zero => exact absurd hk (Nat.not_lt_zero k)
  | succ f ih =>
    cases k with
    | zero =>
      have h0 : button_pressed (levels i) = true := by simpa using hp
      simp [waitLoop, h0, elapsedUs, pollCount]
    | succ k =>
      have h0 : button_pressed (levels i) = false := by
        have := hmin 0 (Nat.succ_pos k); simpa using this
      have hrest := ih (i + 1) k (by omega)
        (by simpa [Nat.add_assoc, Nat.add_comm 1 k] using hp)
        (fun j hj => by
          have := hmin (j + 1) (by omega)
          simpa [Nat.add_assoc, Nat.add_comm 1 j] using this)
      simp only [waitLoop, h0, if_false, Bool.false_eq_true, elapsedUs, pollCount]
      omega

/-! ### C3 -/

/-- C3: `wait_for_button_or_timeout` polls the button at a fixed 0.1 s
interval.  If no press occurs it returns after exactly
`timeout_seconds * 10` polls, i.e. after the full timeout; if the button
first reads pressed at poll `k`, it returns after the `k` sleeps so far
plus the fixed 0.3 s settle delay, having performed `k + 1` polls. -/
theorem wait_for_button_or_timeout_behaviour (levels : Nat → Nat) (t : Nat) :
    ((∀ j, j < t * 10 → button_pressed (levels j) = false) →
      elapsedUs (wait_for_button_or_timeout levels t) = t * 10 * 100000
      ∧ pollCount (wait_for_button_or_timeout levels t) = t * 10)
    ∧ (∀ k, k < t * 10 → button_pressed (levels k) = true →
        (∀ j, j < k → button_pressed (levels j) = false) →
        elapsedUs (wait_for_button_or_timeout levels t) = k * 100000 + 300000
        ∧ pollCount (wait_for_button_or_timeout levels t) = k + 1) := by
  constructor
  · intro h
    exact waitLoop_timeout levels 0 (t * 10) (fun j hj => by simpa using h j hj)
  · intro k hk hp hmin
    exact waitLoop_press levels (t * 10) 0 k hk (by simpa using hp)
      (fun j hj => by simpa using hmin j hj)

/-- Witness for C3: with a 1-second timeout and the button first pressed
at poll index 2, the wait lasts 0.2 s + 0.3 s with 3 polls; with the
button never pressed, it lasts the full 1 s with 10 polls. -/
theorem wait_for_button_or_timeout_behaviour_witness :
    (elapsedUs (wait_for_button_or_timeout (fun j => if j == 2 then 0 else PIN26_MASK) 1)
        = 2 * 100000 + 300000
      ∧ pollCount (wait_for_button_or_timeout (fun j => if j == 2 then 0 else PIN26_MASK) 1)
        = 2 + 1)
    ∧ (elapsedUs (wait_for_button_or_timeout (fun _ => PIN26_MASK) 1) = 1 * 10 * 100000
      ∧ pollCount (wait_for_button_or_timeout (fun _ => PIN26_MASK) 1) = 1 * 10) :=
  ⟨(wait_for_button_or_timeout_behaviour (fun j => if j == 2 then 0 else PIN26_MASK) 1).2
      2 (by decide) (by decide) (by decide),
   (wait_for_button_or_timeout_behaviour (fun _ => PIN26_MASK) 1).1 (by decide)⟩

/-! ### C2 -/

/-- Upper bound on the wait loop's duration: at worst `f - 1` failed polls
followed by a press, i.e. `(f-1)·0.1 s + 0.3 s ≤ f·0.1 s + 0.2 s`. -/
theorem waitLoop_elapsed_le (levels : Nat → Nat) (i f : Nat) :
    elapsedUs (waitLoop levels i f) ≤ f * 100000 + 200000 := by
  induction f generalizing i with
  | zero => simp [waitLoop, elapsedUs]
  | succ f ih =>
    cases hb : button_pressed (levels i) with
    | true => simp [waitLoop, hb, elapsedUs] <;> omega
    | false =>
      have := ih (i + 1)
      simp only [waitLoop, hb, if_false, Bool.false_eq_true, elapsedUs]
      omega

/-- Lower bound on the wait loop's duration: an immediate press still
costs the 0.3 s debounce; with little fuel the loop is bounded by the
remaining 0.1 s sleeps. -/
theorem waitLoop_elapsed_ge (levels : Nat → Nat) (i f : Nat) :
    min (f * 100000) 300000 ≤ elapsedUs (waitLoop levels i f) := by
  induction f generalizing i with
  | zero => simp [waitLoop, elapsedUs]
  | succ f ih =>
    cases hb : button_pressed (levels i) with
    | true => simp [waitLoop, hb, elapsedUs] <;> omega
    | false =>
      have := ih (i + 1)
      simp only [waitLoop, hb, if_false, Bool.false_eq_true, elapsedUs]
      omega

/-- C2 counterexample: when the button is first pressed at the 50th poll
(index 49), the button-wait phase lasts 49·0.1 s + 0.3 s = 5.2 s, which
exceeds the claimed inclusive maximum of 5 seconds. -/
theorem button_wait_can_exceed_five_seconds :
    elapsedUs (wait_for_button_or_timeout (fun j => if j == 49 then 0 else PIN26_MASK) 5)
      = 5200000
    ∧ ¬ (elapsedUs (wait_for_button_or_timeout (fun j => if j == 49 then 0 else PIN26_MASK) 5)
        ≤ 5000000) := by decide

/-- C2 amended: for every pattern of button levels, the total simulated
time of one full run of `traffic_light_sequence` equals 18 s of fixed
holds (3+2+5+2+3·(0.5+0.5)+3) plus the button-wait phase, and the
button-wait phase contributes between 0.3 s and 5.2 s inclusive. -/
theorem sequence_total_time (levels : Nat → Nat) :
    elapsedUs (traffic_light_sequence levels)
      = 18000000 + elapsedUs (wait_for_button_or_timeout levels 5)
    ∧ 300000 ≤ elapsedUs (wait_for_button_or_timeout levels 5)
    ∧ elapsedUs (wait_for_button_or_timeout levels 5) ≤ 5200000 := by
  refine ⟨?_, ?_, ?_⟩
  · have h1 : elapsedUs phase1 = 3000000 := by decide
    have h2 : elapsedUs phase2 = 2000000 := by decide
    have h3 : elapsedUs phase3 = 5000000 := by decide
    have h5 : elapsedUs phase5 = 2000000 := by decide
    have h6 : elapsedUs phase6 = 3000000 := by decide
    have h7 : elapsedUs phase7 = 3000000 := by decide
    have h4 : elapsedUs (phase4 levels)
        = elapsedUs (wait_for_button_or_timeout levels 5) := by
      simp [phase4, elapsedUs_append, elapsedUs]
    simp only [traffic_light_sequence, elapsedUs_append, h1, h2, h3, h4, h5, h6, h7]
    omega
  · have := waitLoop_elapsed_ge levels 0 (5 * 10)
    simpa [wait_for_button_or_timeout] using this
  · have := waitLoop_elapsed_le levels 0 (5 * 10)
    simpa [wait_for_button_or_timeout] using this

/-! ### C5 -/

/-- C5: `main` returns exit code 0 on normal completion; whenever the
`/dev/mem` open or the `mmap` call fails it returns exit code 1 and the
register block is untouched (the event trace is empty); on success the
trace is initialization, one sequence, and the final cleanup. -/
theorem main_run_exit_codes (argc : Nat) (argv : List String) (openOk mmapOk : Bool)
    (fsel1 fsel2 : Nat) (levels : Nat → Nat) :
    main_run argc argv openOk mmapOk fsel1 fsel2 levels
      = if openOk && mmapOk then
          (0, init_gpio fsel1 fsel2 ++ traffic_light_sequence levels
            ++ [Ev.clrw PIN10_MASK, Ev.clrw PIN11_MASK, Ev.clrw PIN13_MASK])
        else (1, []) := by
  cases openOk <;> cases mmapOk <;> simp [main_run, setup_gpio]

/-! ### C8 -/

/-- Folding the latch semantics distributes over concatenation. -/
theorem ledFold_append (out : Nat) (l1 l2 : List Ev) :
    ledFold out (l1 ++ l2) = ledFold (ledFold out l1) l2 := by
  simp [ledFold]

/-- The final three clear writes of `main` leave all three LED bits low,
whatever the latch held before them. -/
theorem cleanup_clears_leds (y : Nat) :
    ledFold y [Ev.clrw PIN10_MASK, Ev.clrw PIN11_MASK, Ev.clrw PIN13_MASK]
      &&& LED_MASK = 0 := by
  show (((y &&& (WORD_MASK ^^^ PIN10_MASK)) &&& (WORD_MASK ^^^ PIN11_MASK))
      &&& (WORD_MASK ^^^ PIN13_MASK)) &&& LED_MASK = 0
  rw [Nat.and_assoc, Nat.and_assoc, Nat.and_assoc]
  have h : (WORD_MASK ^^^ PIN10_MASK) &&& ((WORD_MASK ^^^ PIN11_MASK)
      &&& ((WORD_MASK ^^^ PIN13_MASK) &&& LED_MASK)) = 0 := by decide
  rw [h, Nat.and_zero]

/-- C8: on a successful run the whole event trace is the initialization,
exactly one `traffic_light_sequence` (with no transition back), and then
the three cleanup clear writes; consequently, from any initial latch
state, the final latch has all three LED bits (10, 11, 13) clear. -/
theorem main_run_single_sequence_final_leds_off (argc : Nat) (argv : List String)
    (fsel1 fsel2 out0 : Nat) (levels : Nat → Nat) :
    (main_run argc argv true true fsel1 fsel2 levels).2
      = init_gpio fsel1 fsel2 ++ traffic_light_sequence levels
        ++ [Ev.clrw PIN10_MASK, Ev.clrw PIN11_MASK, Ev.clrw PIN13_MASK]
    ∧ ledFold out0 (main_run argc argv true true fsel1 fsel2 levels).2
        &&& LED_MASK = 0 := by
  refine ⟨rfl, ?_⟩
  show ledFold out0 (init_gpio fsel1 fsel2 ++ traffic_light_sequence levels
      ++ [Ev.clrw PIN10_MASK, Ev.clrw PIN11_MASK, Ev.clrw PIN13_MASK])
      &&& LED_MASK = 0
  rw [ledFold_append]
  exact cleanup_clears_leds _

/-! ### C10 -/

/-- `writeVals` distributes over concatenation. -/
theorem writeVals_append (l1 l2 : List Ev) :
    writeVals (l1 ++ l2) = writeVals l1 ++ writeVals l2 := by
  induction l1 with
  | nil => simp [writeVals]
  | cons e rest ih => cases e <;> simp [writeVals, ih]

/-- The wait loop writes nothing to the set or clear registers. -/
theorem writeVals_waitLoop (levels : Nat → Nat) (i f : Nat) :
    writeVals (waitLoop levels i f) = [] := by
  induction f generalizing i with
  | zero => simp [waitLoop, writeVals]
  | succ f ih =>
    cases hb : button_pressed (levels i) with
    | true => simp [waitLoop, hb, writeVals]
    | false => simp [waitLoop, hb, writeVals, ih]

/-- C10: every value the program ever writes to the GPSET0 set register
or the GPCLR0 clear register — in `init_gpio`, in the LED helper
functions, in `traffic_light_sequence`, and in `main`'s final cleanup —
is one of the single-bit masks `PIN10_MASK`, `PIN11_MASK`, `PIN13_MASK`;
in particular bit 26 is never asserted in a set/clear write. -/
theorem set_clear_writes_only_led_masks (argc : Nat) (argv : List String)
    (openOk mmapOk : Bool) (fsel1 fsel2 : Nat) (levels : Nat → Nat) (v : Nat)
    (hv : v ∈ writeVals ((main_run argc argv openOk mmapOk fsel1 fsel2 levels).2
        ++ [red_on, red_off, yellow_on, yellow_off, green_on, green_off])) :
    v = PIN10_MASK ∨ v = PIN11_MASK ∨ v = PIN13_MASK := by
  cases openOk <;> cases mmapOk <;>
    simp [main_run, setup_gpio, init_gpio, traffic_light_sequence, phase1, phase2,
      phase3, phase4, phase5, phase6, phase7, wait_for_button_or_timeout, blink,
      YELLOW_BLINK_COUNT, red_on, red_off, yellow_on, yellow_off, green_on, green_off,
      writeVals_append, writeVals_waitLoop, writeVals] at hv <;>
    tauto

/-- Witness for C10 at a concrete environment and the first write value. -/
theorem set_clear_writes_only_led_masks_witness :
    PIN13_MASK = PIN10_MASK ∨ PIN13_MASK = PIN11_MASK ∨ PIN13_MASK = PIN13_MASK :=
  set_clear_writes_only_led_masks 1 [] true true 0 0 (fun _ => 0) PIN13_MASK
    (by decide)

/-! ### C4 -/

/-- The claim's per-instant check for one phase: after every event of the
phase, the lit LED bits are at most (a subset of) the `allowed`
combination. -/
def phaseOK (s : Nat) (evs : List Ev) (allowed : Nat) : Bool :=
  (ledStates s evs).all fun st => st &&& LED_MASK &&& (WORD_MASK ^^^ allowed) == 0

/-- Thread the latch state through the phases, checking each phase's
events against its allowed LED combination. -/
def checkPhases (s : Nat) : List (List Ev) → List Nat → Bool
  | [], [] => true
  | evs :: ps, c :: cs => phaseOK s evs c && checkPhases (ledFold s evs) ps cs
  | _, _ => false

/-- As `checkPhases`, additionally requiring that the lit LED bits at the
end of each phase's events equal the phase's documented combination
exactly. -/
def checkPhasesEnd (s : Nat) : List (List Ev) → List Nat → List Nat → Bool
  | [], [], [] => true
  | evs :: ps, c :: cs, e :: es =>
    phaseOK s evs c && (ledFold s evs &&& LED_MASK == e)
      && checkPhasesEnd (ledFold s evs) ps cs es
  | _, _, _ => false

/-- No state of the run has red (bit 10) and green (bit 13) lit at once. -/
def noRedGreen (s : Nat) (evs : List Ev) : Bool :=
  (ledStates s evs).all fun st =>
    !((st &&& (PIN10_MASK ||| PIN13_MASK)) == (PIN10_MASK ||| PIN13_MASK))

/-- The set/clear register writes of each of the seven phases, in order
(sleeps and polls do not change the latch, so checking the state after
every write covers every instant of the run). -/
def phaseWrites (levels : Nat → Nat) : List (List Ev) :=
  [phase1, phase2, phase3, phase4 levels, phase5, phase6, phase7].map
    (List.filter isWrite)

/-- The documented LED combination of each phase: red; red+yellow; green;
green; green; yellow (blinking); red. -/
def combos : List Nat :=
  [PIN10_MASK, PIN10_MASK ||| PIN11_MASK, PIN13_MASK, PIN13_MASK, PIN13_MASK,
   PIN11_MASK, PIN10_MASK]

/-- Union of each phase's documented combination with its predecessor's
(the sequence is entered with all LEDs off). -/
def combosU : List Nat :=
  [PIN10_MASK, PIN10_MASK ||| PIN11_MASK, PIN10_MASK ||| PIN11_MASK ||| PIN13_MASK,
   PIN13_MASK, PIN13_MASK, PIN11_MASK ||| PIN13_MASK, PIN10_MASK ||| PIN11_MASK]

/-- The exact LED combination at the end of each phase's writes (phase 6
ends with the blinking yellow off). -/
def endCombos : List Nat :=
  [PIN10_MASK, PIN10_MASK ||| PIN11_MASK, PIN13_MASK, PIN13_MASK, PIN13_MASK,
   0, PIN10_MASK]

/-- The wait loop contains no set/clear register writes. -/
theorem filter_isWrite_waitLoop (levels : Nat → Nat) (i f : Nat) :
    (waitLoop levels i f).filter isWrite = [] := by
  induction f generalizing i with
  | zero => simp [waitLoop]
  | succ f ih =>
    cases hb : button_pressed (levels i) with
    | true => simp [waitLoop, hb, isWrite]
    | false => simp [waitLoop, hb, isWrite, ih]

/-- For every button input, the per-phase write lists are one fixed
concrete value (the wait contributes no writes). -/
theorem phaseWrites_concrete (levels : Nat → Nat) :
    phaseWrites levels =
      [[Ev.setw PIN10_MASK, Ev.clrw PIN11_MASK, Ev.clrw PIN13_MASK],
       [Ev.setw PIN10_MASK, Ev.setw PIN11_MASK, Ev.clrw PIN13_MASK],
       [Ev.clrw PIN10_MASK, Ev.clrw PIN11_MASK, Ev.setw PIN13_MASK],
       [Ev.clrw PIN10_MASK, Ev.clrw PIN11_MASK, Ev.setw PIN13_MASK],
       [Ev.clrw PIN10_MASK, Ev.clrw PIN11_MASK, Ev.setw PIN13_MASK],
       [Ev.clrw PIN10_MASK, Ev.clrw PIN13_MASK,
        Ev.setw PIN11_MASK, Ev.clrw PIN11_MASK,
        Ev.setw PIN11_MASK, Ev.clrw PIN11_MASK,
        Ev.setw PIN11_MASK, Ev.clrw PIN11_MASK],
       [Ev.setw PIN10_MASK, Ev.clrw PIN11_MASK, Ev.clrw PIN13_MASK]] := by
  simp [phaseWrites, phase1, phase2, phase3, phase4, phase5, phase6, phase7,
    wait_for_button_or_timeout, blink, YELLOW_BLINK_COUNT, filter_isWrite_waitLoop,
    isWrite]

/-- The write list of the whole sequence, for every button input. -/
theorem seq_writes_concrete (levels : Nat → Nat) :
    (traffic_light_sequence levels).filter isWrite =
      [Ev.setw PIN10_MASK, Ev.clrw PIN11_MASK, Ev.clrw PIN13_MASK,
       Ev.setw PIN10_MASK, Ev.setw PIN11_MASK, Ev.clrw PIN13_MASK,
       Ev.clrw PIN10_MASK, Ev.clrw PIN11_MASK, Ev.setw PIN13_MASK,
       Ev.clrw PIN10_MASK, Ev.clrw PIN11_MASK, Ev.setw PIN13_MASK,
       Ev.clrw PIN10_MASK, Ev.clrw PIN11_MASK, Ev.setw PIN13_MASK,
       Ev.clrw PIN10_MASK, Ev.clrw PIN13_MASK,
       Ev.setw PIN11_MASK, Ev.clrw PIN11_MASK,
       Ev.setw PIN11_MASK, Ev.clrw PIN11_MASK,
       Ev.setw PIN11_MASK, Ev.clrw PIN11_MASK,
       Ev.setw PIN10_MASK, Ev.clrw PIN11_MASK, Ev.clrw PIN13_MASK] := by
  simp [traffic_light_sequence, phase1, phase2, phase3, phase4, phase5, phase6,
    phase7, wait_for_button_or_timeout, blink, YELLOW_BLINK_COUNT,
    filter_isWrite_waitLoop, isWrite]

/-- C4 counterexample: starting from the all-off state established by
`init_gpio`, the claim "after every set/clear write the lit LED bits are
at most the current phase's documented combination" fails on the code:
after phase 3's first write (clear red) the yellow bit is still high,
while phase 3's documented combination is green only.  Shown false at
the concrete button input that is never pressed. -/
theorem per_phase_combination_claim_fails :
    checkPhases 0 (phaseWrites (fun _ => PIN26_MASK)) combos = false := by decide

/-- C4 amended: for every button input, after every individual set/clear
write the lit LED bits are at most the union of the previous and current
phases' documented combinations; the lit bits at the end of each phase's
writes equal exactly the documented combination (e.g. red and yellow
during phase 2, with green clear); and red and green are never
simultaneously high at any instant of the run. -/
theorem per_phase_combinations_amended (levels : Nat → Nat) :
    checkPhasesEnd 0 (phaseWrites levels) combosU endCombos = true
    ∧ noRedGreen 0 ((traffic_light_sequence levels).filter isWrite) = true := by
  rw [phaseWrites_concrete, seq_writes_concrete]
  constructor <;> decide

end TrafficSignal
